import Mathlib

/-!
Shallow embedding of the Billboard backend pricing and referral code.

Numbers are modelled as exact rationals (`ℚ`); `Math.round` is Mathlib's
`round` (both are `⌊x + 1/2⌋`).  JavaScript `Date` values enter the pricing
engine only through `getHours()` and `getDay()`, so a date is modelled as
that pair.  Lookups in the TypeScript constant objects are modelled as
`String → Option _` functions; a missing key is `none` (JS `undefined`).
-/

/-- Slot tiers, the values of `SLOT_TIER_MAPPING` (`shared/schema`). -/
inductive SlotTier where
  | TOP
  | MID
  | BOTTOM
deriving DecidableEq, Repr

/-- Ad formats: the keys of the `FORMAT_MULTIPLIERS` object (the TypeScript
type `AdFormat = keyof typeof FORMAT_MULTIPLIERS` includes the bonus key). -/
inductive AdFormat where
  | VIDEO
  | IMAGE
  | TEXT
  | AI_GENERATED_BONUS
deriving DecidableEq, Repr

/-- A JS `Date` as the pricing engine observes it: `getHours()` and
`getDay()`. -/
structure JSDate where
  getHours : ℕ
  getDay : ℕ
deriving DecidableEq, Repr

/-- `BASE_RATES.TOP_TIER` — $15/day. -/
def BASE_RATES.TOP_TIER : ℚ := 15

/-- `BASE_RATES.MID_TIER` — $10/day. -/
def BASE_RATES.MID_TIER : ℚ := 10

/-- `BASE_RATES.BOTTOM_TIER` — $5/day. -/
def BASE_RATES.BOTTOM_TIER : ℚ := 5

/-- `SLOT_MULTIPLIERS` object, keyed by tier. -/
def SLOT_MULTIPLIERS : SlotTier → ℚ
  | .TOP => 2.0
  | .MID => 1.3
  | .BOTTOM => 1.0

/-- `GEO_MULTIPLIERS` object: country code (or `"DEFAULT"`) to multiplier;
`none` for a key not in the object. -/
def GEO_MULTIPLIERS : String → Option ℚ
  | "US" => some 1.5
  | "UK" => some 1.5
  | "DE" => some 1.5
  | "CA" => some 1.4
  | "AU" => some 1.4
  | "IN" => some 1.2
  | "BR" => some 1.2
  | "MX" => some 1.1
  | "FR" => some 1.3
  | "IT" => some 1.3
  | "ES" => some 1.2
  | "NG" => some 0.8
  | "KE" => some 0.7
  | "GH" => some 0.7
  | "ZA" => some 0.9
  | "EG" => some 0.8
  | "DEFAULT" => some 1.0
  | _ => none

/-- `TIME_MULTIPLIERS.PRIME_TIME` (6 PM - 10 PM). -/
def TIME_MULTIPLIERS.PRIME_TIME : ℚ := 1.4

/-- `TIME_MULTIPLIERS.BUSINESS_HOURS` (9 AM - 5 PM). -/
def TIME_MULTIPLIERS.BUSINESS_HOURS : ℚ := 1.2

/-- `TIME_MULTIPLIERS.EVENING` (5 PM - 9 PM). -/
def TIME_MULTIPLIERS.EVENING : ℚ := 1.1

/-- `TIME_MULTIPLIERS.MORNING` (6 AM - 9 AM). -/
def TIME_MULTIPLIERS.MORNING : ℚ := 1.0

/-- `TIME_MULTIPLIERS.LATE_NIGHT` (10 PM - 6 AM). -/
def TIME_MULTIPLIERS.LATE_NIGHT : ℚ := 0.6

/-- `TIME_MULTIPLIERS.WEEKEND` (Saturday & Sunday). -/
def TIME_MULTIPLIERS.WEEKEND : ℚ := 1.1

/-- `FORMAT_MULTIPLIERS` values for each key. -/
def FORMAT_MULTIPLIERS : AdFormat → ℚ
  | .VIDEO => 1.5
  | .IMAGE => 1.0
  | .TEXT => 0.8
  | .AI_GENERATED_BONUS => 10

/-- `FORMAT_MULTIPLIERS.AI_GENERATED_BONUS` — flat $10 bonus. -/
def AI_GENERATED_BONUS : ℚ := FORMAT_MULTIPLIERS .AI_GENERATED_BONUS

/-- `DURATION_DISCOUNTS` object, keyed by day threshold. -/
def DURATION_DISCOUNTS (threshold : ℕ) : ℚ :=
  if threshold = 1 then 1.0
  else if threshold = 3 then 0.95
  else if threshold = 7 then 0.90
  else if threshold = 14 then 0.85
  else 0.80

/-- `DEMAND_MULTIPLIERS.VERY_HIGH`. -/
def DEMAND_MULTIPLIERS.VERY_HIGH : ℚ := 1.8

/-- `DEMAND_MULTIPLIERS.HIGH`. -/
def DEMAND_MULTIPLIERS.HIGH : ℚ := 1.4

/-- `DEMAND_MULTIPLIERS.MEDIUM`. -/
def DEMAND_MULTIPLIERS.MEDIUM : ℚ := 1.0

/-- `AD_SLOT_TYPES.TOP_CENTER`. -/
def AD_SLOT_TYPES.TOP_CENTER : String := "top_center"

/-- `SLOT_TIER_MAPPING` object: slot-type string to tier; `none` (JS
`undefined`) for a string that is not one of the eleven slot types. -/
def SLOT_TIER_MAPPING : String → Option SlotTier
  | "top_center" => some .TOP
  | "top_left" => some .TOP
  | "top_right" => some .TOP
  | "mid_center" => some .MID
  | "mid_left" => some .MID
  | "mid_right" => some .MID
  | "bottom_center" => some .BOTTOM
  | "bottom_left" => some .BOTTOM
  | "bottom_right" => some .BOTTOM
  | "mobile_banner" => some .BOTTOM
  | "mobile_interstitial" => some .MID
  | _ => none

/-- `PricingRequest` (`server/services/pricing-engine`).  At runtime the
slot type and country code are plain strings coming from the request body;
`isAiGenerated` is optional in TS and falsy when absent, so it is a `Bool`
here. -/
structure PricingRequest where
  slotType : String
  duration : ℚ
  countryCode : String
  startDate : JSDate
  adFormat : AdFormat
  isAiGenerated : Bool
deriving DecidableEq, Repr

/-- `PricingBreakdown`. -/
structure PricingBreakdown where
  baseRate : ℚ
  slotMultiplier : ℚ
  geoMultiplier : ℚ
  timeMultiplier : ℚ
  formatMultiplier : ℚ
  durationDiscount : ℚ
  demandMultiplier : ℚ
  aiGeneratedBonus : ℚ
  subtotal : ℚ
  total : ℚ
  dailyRate : ℚ
deriving DecidableEq, Repr

/-- `PricingResult`. -/
structure PricingResult where
  total : ℚ
  dailyRate : ℚ
  breakdown : PricingBreakdown
  currency : String
deriving DecidableEq, Repr

/-- `Math.round(x * 100) / 100` — round to 2 decimal places. -/
def round2 (x : ℚ) : ℚ := (round (x * 100) : ℚ) / 100

/-- `SmartPricingEngine.getBaseRate` (the `default` arm of the `switch`
returns the bottom-tier rate; with a defined tier it is unreachable). -/
def getBaseRate : SlotTier → ℚ
  | .TOP => BASE_RATES.TOP_TIER
  | .MID => BASE_RATES.MID_TIER
  | .BOTTOM => BASE_RATES.BOTTOM_TIER

/-- `SmartPricingEngine.getGeoMultiplier`:
`GEO_MULTIPLIERS[countryCode] || GEO_MULTIPLIERS.DEFAULT` (the JS `||`
falls back on `undefined`; no table value is falsy, and `0` would also
fall back, modelled by the inner `if`). -/
def getGeoMultiplier (countryCode : String) : ℚ :=
  match GEO_MULTIPLIERS countryCode with
  | some v => if v = 0 then 1.0 else v
  | none => 1.0

/-- `SmartPricingEngine.getTimeMultiplier`. -/
def getTimeMultiplier (startDate : JSDate) : ℚ :=
  let hour := startDate.getHours
  let dayOfWeek := startDate.getDay
  if dayOfWeek = 0 ∨ dayOfWeek = 6 then
    TIME_MULTIPLIERS.WEEKEND
  else if 18 ≤ hour ∧ hour < 22 then
    TIME_MULTIPLIERS.PRIME_TIME
  else if 9 ≤ hour ∧ hour < 17 then
    TIME_MULTIPLIERS.BUSINESS_HOURS
  else if 17 ≤ hour ∧ hour < 21 then
    TIME_MULTIPLIERS.EVENING
  else if 6 ≤ hour ∧ hour < 9 then
    TIME_MULTIPLIERS.MORNING
  else
    TIME_MULTIPLIERS.LATE_NIGHT

/-- `SmartPricingEngine.getDurationDiscount`. -/
def getDurationDiscount (duration : ℚ) : ℚ :=
  if 30 ≤ duration then DURATION_DISCOUNTS 30
  else if 14 ≤ duration then DURATION_DISCOUNTS 14
  else if 7 ≤ duration then DURATION_DISCOUNTS 7
  else if 3 ≤ duration then DURATION_DISCOUNTS 3
  else DURATION_DISCOUNTS 1

/-- `SmartPricingEngine.getDemandMultiplier`: branches on the slot type
string (`AD_SLOT_TYPES.TOP_CENTER`), not on its tier. -/
def getDemandMultiplier (slotType : String) (startDate : JSDate) : ℚ :=
  let hour := startDate.getHours
  let dayOfWeek := startDate.getDay
  if slotType = AD_SLOT_TYPES.TOP_CENTER ∧ 18 ≤ hour ∧ hour < 22 then
    DEMAND_MULTIPLIERS.VERY_HIGH
  else if slotType = AD_SLOT_TYPES.TOP_CENTER ∧ 9 ≤ hour ∧ hour < 17 then
    DEMAND_MULTIPLIERS.HIGH
  else if dayOfWeek = 0 ∨ dayOfWeek = 6 then
    DEMAND_MULTIPLIERS.MEDIUM
  else
    DEMAND_MULTIPLIERS.MEDIUM

/-- `SmartPricingEngine.calculatePrice`.  When the slot type is not a key
of `SLOT_TIER_MAPPING`, JS reads `undefined` for the tier, the slot
multiplier is `undefined` and every numeric output is `NaN`; that
degenerate case is `none` here.  On the defined domain the function is the
source computation verbatim. -/
def calculatePrice (request : PricingRequest) : Option PricingResult :=
  match SLOT_TIER_MAPPING request.slotType with
  | none => none
  | some slotTier =>
    let baseRate := getBaseRate slotTier
    let slotMultiplier := SLOT_MULTIPLIERS slotTier
    let geoMultiplier := getGeoMultiplier request.countryCode
    let timeMultiplier := getTimeMultiplier request.startDate
    let formatMultiplier := FORMAT_MULTIPLIERS request.adFormat
    let durationDiscount := getDurationDiscount request.duration
    let demandMultiplier := getDemandMultiplier request.slotType request.startDate
    let aiGeneratedBonus := if request.isAiGenerated then AI_GENERATED_BONUS else 0
    let subtotal := baseRate * slotMultiplier * geoMultiplier * timeMultiplier *
      formatMultiplier * durationDiscount * demandMultiplier * request.duration
    let total := subtotal + aiGeneratedBonus
    let dailyRate := total / request.duration
    some {
      total := round2 total
      dailyRate := round2 dailyRate
      breakdown := {
        baseRate := baseRate
        slotMultiplier := slotMultiplier
        geoMultiplier := geoMultiplier
        timeMultiplier := timeMultiplier
        formatMultiplier := formatMultiplier
        durationDiscount := durationDiscount
        demandMultiplier := demandMultiplier
        aiGeneratedBonus := aiGeneratedBonus
        subtotal := subtotal
        total := total
        dailyRate := dailyRate
      }
      currency := "USD"
    }

/-! ### The `/calculate` route (`server/routes/pricing.ts`)

The request body is JSON; each field of `pricingRequestSchema` is modelled
as an optional JSON value (`none` = key absent).  `zod`'s
`parse` either produces validated data or throws, which the handler turns
into an HTTP 400 response. -/

/-- A JSON value as far as the schema's field checks observe it. -/
inductive JVal where
  | jstr (s : String)
  | jnum (q : ℚ)
  | jbool (b : Bool)
  | jother
deriving DecidableEq, Repr

/-- The raw request body: the fields `pricingRequestSchema` inspects. -/
structure RawBody where
  slotType : Option JVal
  duration : Option JVal
  countryCode : Option JVal
  startDate : Option JVal
  adFormat : Option JVal
  isAiGenerated : Option JVal
deriving DecidableEq, Repr

/-- The output of `pricingRequestSchema.parse`, before the `as any` casts
build the `PricingRequest`; `startDate` is still the raw string, the
`transform` to a `Date` being applied by the caller-supplied parser. -/
structure ValidatedPricing where
  slotType : String
  duration : ℚ
  countryCode : String
  startDate : String
  adFormat : AdFormat
  isAiGenerated : Bool
deriving DecidableEq, Repr

/-- `pricingRequestSchema.parse`: `slotType` any string, `duration` a
number in `[1, 30]`, `countryCode` a 2-character string, `startDate` a
string, `adFormat` one of `IMAGE`/`VIDEO`/`TEXT`, `isAiGenerated` an
optional boolean defaulting to `false`. -/
def parsePricingRequest (body : RawBody) : Except String ValidatedPricing := do
  let slotType ← match body.slotType with
    | some (.jstr s) => pure s
    | _ => throw "slotType: Expected string"
  let duration ← match body.duration with
    | some (.jnum q) =>
      if q < 1 then throw "duration: Number must be greater than or equal to 1"
      else if 30 < q then throw "duration: Number must be less than or equal to 30"
      else pure q
    | _ => throw "duration: Expected number"
  let countryCode ← match body.countryCode with
    | some (.jstr s) =>
      if s.length = 2 then pure s
      else throw "countryCode: String must contain exactly 2 characters"
    | _ => throw "countryCode: Expected string"
  let startDate ← match body.startDate with
    | some (.jstr s) => pure s
    | _ => throw "startDate: Expected string"
  let adFormat ← match body.adFormat with
    | some (.jstr "IMAGE") => pure AdFormat.IMAGE
    | some (.jstr "VIDEO") => pure AdFormat.VIDEO
    | some (.jstr "TEXT") => pure AdFormat.TEXT
    | _ => throw "adFormat: Invalid enum value"
  let isAiGenerated ← match body.isAiGenerated with
    | none => pure false
    | some (.jbool b) => pure b
    | some _ => throw "isAiGenerated: Expected boolean"
  pure {
    slotType := slotType
    duration := duration
    countryCode := countryCode
    startDate := startDate
    adFormat := adFormat
    isAiGenerated := isAiGenerated
  }

/-- Build the `PricingRequest` the route hands to the engine, applying the
`startDate` string-to-`Date` transform. -/
def toPricingRequest (parseDate : String → JSDate) (v : ValidatedPricing) :
    PricingRequest :=
  { slotType := v.slotType
    duration := v.duration
    countryCode := v.countryCode
    startDate := parseDate v.startDate
    adFormat := v.adFormat
    isAiGenerated := v.isAiGenerated }

/-- The two responses `POST /calculate` can produce: `res.json` with
`success: true` and the pricing result spread into the body, or
`res.status(400).json` with `success: false` and an error message.  The
`Option` inside `success` is `none` exactly in the degenerate
unmapped-slot-type case where the JS result fields are `NaN`. -/
inductive PricingResponse where
  | success (result : Option PricingResult)
  | badRequest (error : String)
deriving DecidableEq, Repr

/-- The `POST /calculate` handler: parse the body, on success respond with
the engine's result, on a thrown validation error respond 400 with the
error's message. -/
def postCalculate (parseDate : String → JSDate) (body : RawBody) :
    PricingResponse :=
  match parsePricingRequest body with
  | .error e => .badRequest e
  | .ok v => .success (calculatePrice (toPricingRequest parseDate v))

/-! ### `ReferralEngine.processRewards` (`server/services/referral-engine.ts`)

The loop body looks a reward up, rejects a missing or non-pending reward
with an error message, pays the reward out and marks it paid.  The
database-backed calls are modelled by an environment: `findReward` is the
lookup, and `payout` is the combined effect of the reward-type `switch`
and `updateReward`, which in a real implementation may throw with a
message (the mock implementations never do). -/

/-- Reward status. -/
inductive RewardStatus where
  | pending
  | approved
  | paid
  | expired
deriving DecidableEq, Repr

/-- The fields of `ReferralReward` the processing loop reads. -/
structure ReferralReward where
  id : String
  referrerId : String
  rewardValue : ℚ
  status : RewardStatus
deriving DecidableEq, Repr

/-- The environment of database operations `processRewards` awaits. -/
structure RewardEnv where
  findReward : String → Option ReferralReward
  payout : String → Except String Unit

/-- One iteration of the `for` loop over reward ids: accumulator is
`(processed, failed, errors)`. -/
def processOne (env : RewardEnv) (acc : ℕ × ℕ × List String)
    (rewardId : String) : ℕ × ℕ × List String :=
  match env.findReward rewardId with
  | none =>
    (acc.1, acc.2.1 + 1, acc.2.2 ++ ["Reward " ++ rewardId ++ " not found"])
  | some reward =>
    if reward.status ≠ RewardStatus.pending then
      (acc.1, acc.2.1 + 1,
        acc.2.2 ++ ["Reward " ++ rewardId ++ " is not in pending status"])
    else
      match env.payout rewardId with
      | .error m =>
        (acc.1, acc.2.1 + 1,
          acc.2.2 ++ ["Failed to process reward " ++ rewardId ++ ": " ++ m])
      | .ok _ => (acc.1 + 1, acc.2.1, acc.2.2)

/-- `ReferralEngine.processRewards`: fold the loop body over the reward
ids starting from zero counters and no errors. -/
def processRewards (env : RewardEnv) (rewardIds : List String) :
    ℕ × ℕ × List String :=
  rewardIds.foldl (processOne env) (0, 0, [])

theorem rat_round_mono {x y : ℚ} (h : x ≤ y) : round x ≤ round y := by
  rw [round_eq, round_eq]; exact Int.floor_mono (by linarith)

theorem round2_mono {x y : ℚ} (h : x ≤ y) : round2 x ≤ round2 y := by
  unfold round2
  have := rat_round_mono (mul_le_mul_of_nonneg_right h (by norm_num : (0:ℚ) ≤ 100))
  have hc : ((round (x * 100) : ℤ) : ℚ) ≤ ((round (y * 100) : ℤ) : ℚ) := Int.cast_le.mpr this
  linarith

theorem GEO_MULTIPLIERS_pos (c : String) (v : ℚ) (h : GEO_MULTIPLIERS c = some v) :
    0 < v := by
  unfold GEO_MULTIPLIERS at h
  split at h <;> simp_all <;> exact h ▸ (by norm_num)

theorem getGeoMultiplier_pos (c : String) : 0 < getGeoMultiplier c := by
  cases h : GEO_MULTIPLIERS c with
  | none => simp only [getGeoMultiplier, h]; norm_num
  | some v =>
    have hv := GEO_MULTIPLIERS_pos c v h
    simp only [getGeoMultiplier, h]
    split_ifs <;> [norm_num; exact hv]

theorem getTimeMultiplier_pos (d : JSDate) : 0 < getTimeMultiplier d := by
  simp only [getTimeMultiplier]
  split_ifs <;> norm_num [TIME_MULTIPLIERS.WEEKEND, TIME_MULTIPLIERS.PRIME_TIME,
    TIME_MULTIPLIERS.BUSINESS_HOURS, TIME_MULTIPLIERS.EVENING,
    TIME_MULTIPLIERS.MORNING, TIME_MULTIPLIERS.LATE_NIGHT]

theorem getDemandMultiplier_pos (s : String) (d : JSDate) :
    0 < getDemandMultiplier s d := by
  simp only [getDemandMultiplier]
  split_ifs <;> norm_num [DEMAND_MULTIPLIERS.VERY_HIGH, DEMAND_MULTIPLIERS.HIGH,
    DEMAND_MULTIPLIERS.MEDIUM]

theorem DURATION_DISCOUNTS_30 : DURATION_DISCOUNTS 30 = 0.80 := by norm_num [DURATION_DISCOUNTS]
theorem DURATION_DISCOUNTS_14 : DURATION_DISCOUNTS 14 = 0.85 := by norm_num [DURATION_DISCOUNTS]
theorem DURATION_DISCOUNTS_7 : DURATION_DISCOUNTS 7 = 0.90 := by norm_num [DURATION_DISCOUNTS]
theorem DURATION_DISCOUNTS_3 : DURATION_DISCOUNTS 3 = 0.95 := by norm_num [DURATION_DISCOUNTS]
theorem DURATION_DISCOUNTS_1 : DURATION_DISCOUNTS 1 = 1.0 := by norm_num [DURATION_DISCOUNTS]

theorem getDurationDiscount_antitone {d1 d2 : ℚ} (h : d1 ≤ d2) :
    getDurationDiscount d2 ≤ getDurationDiscount d1 := by
  simp only [getDurationDiscount, DURATION_DISCOUNTS_30, DURATION_DISCOUNTS_14,
    DURATION_DISCOUNTS_7, DURATION_DISCOUNTS_3, DURATION_DISCOUNTS_1]
  split_ifs with a b c d e g i j k l m n o p q <;> try norm_num
  all_goals linarith

theorem getDurationDiscount_pos (d : ℚ) : 0 < getDurationDiscount d := by
  simp only [getDurationDiscount, DURATION_DISCOUNTS_30, DURATION_DISCOUNTS_14,
    DURATION_DISCOUNTS_7, DURATION_DISCOUNTS_3, DURATION_DISCOUNTS_1]
  split_ifs <;> norm_num

theorem FORMAT_MULTIPLIERS_pos (f : AdFormat) : 0 < FORMAT_MULTIPLIERS f := by
  cases f <;> norm_num [FORMAT_MULTIPLIERS]

theorem getBaseRate_pos (t : SlotTier) : 0 < getBaseRate t := by
  cases t <;> norm_num [getBaseRate, BASE_RATES.TOP_TIER, BASE_RATES.MID_TIER,
    BASE_RATES.BOTTOM_TIER]

theorem SLOT_MULTIPLIERS_pos (t : SlotTier) : 0 < SLOT_MULTIPLIERS t := by
  cases t <;> norm_num [SLOT_MULTIPLIERS]

/-- `calculatePrice` never yields `some` when the slot type has no tier. -/
theorem calculatePrice_none_of_unmapped (r : PricingRequest)
    (h : SLOT_TIER_MAPPING r.slotType = none) : calculatePrice r = none := by
  unfold calculatePrice
  rw [h]

/-- The unrounded `breakdown.total` of a successful calculation. -/
theorem calculatePrice_breakdown_total (r : PricingRequest) (tier : SlotTier)
    (ht : SLOT_TIER_MAPPING r.slotType = some tier)
    (res : PricingResult) (h : calculatePrice r = some res) :
    res.breakdown.total =
      getBaseRate tier * SLOT_MULTIPLIERS tier * getGeoMultiplier r.countryCode *
        getTimeMultiplier r.startDate * FORMAT_MULTIPLIERS r.adFormat *
        getDurationDiscount r.duration *
        getDemandMultiplier r.slotType r.startDate * r.duration +
        (if r.isAiGenerated then AI_GENERATED_BONUS else 0) := by
  unfold calculatePrice at h
  rw [ht] at h
  cases h
  rfl

/-- The rounded `total` of a successful calculation. -/
theorem calculatePrice_total_eq (r : PricingRequest) (tier : SlotTier)
    (ht : SLOT_TIER_MAPPING r.slotType = some tier)
    (res : PricingResult) (h : calculatePrice r = some res) :
    res.total =
      round2 (getBaseRate tier * SLOT_MULTIPLIERS tier * getGeoMultiplier r.countryCode *
        getTimeMultiplier r.startDate * FORMAT_MULTIPLIERS r.adFormat *
        getDurationDiscount r.duration *
        getDemandMultiplier r.slotType r.startDate * r.duration +
        (if r.isAiGenerated then AI_GENERATED_BONUS else 0)) := by
  unfold calculatePrice at h
  rw [ht] at h
  cases h
  rfl

/-- The rounded `dailyRate` of a successful calculation. -/
theorem calculatePrice_dailyRate_eq (r : PricingRequest) (tier : SlotTier)
    (ht : SLOT_TIER_MAPPING r.slotType = some tier)
    (res : PricingResult) (h : calculatePrice r = some res) :
    res.dailyRate =
      round2 ((getBaseRate tier * SLOT_MULTIPLIERS tier * getGeoMultiplier r.countryCode *
        getTimeMultiplier r.startDate * FORMAT_MULTIPLIERS r.adFormat *
        getDurationDiscount r.duration *
        getDemandMultiplier r.slotType r.startDate * r.duration +
        (if r.isAiGenerated then AI_GENERATED_BONUS else 0)) / r.duration) := by
  unfold calculatePrice at h
  rw [ht] at h
  cases h
  rfl

/-- C1: for a pricing request whose slot type is in the tier mapping,
`calculatePrice` succeeds and its unrounded total is the product of the
base rate, slot multiplier, geo multiplier, time multiplier, format
multiplier, duration discount, demand multiplier, and the duration, plus
the flat AI bonus when `isAiGenerated` is set. -/
theorem calculatePrice_total_formula (r : PricingRequest) (tier : SlotTier)
    (ht : SLOT_TIER_MAPPING r.slotType = some tier) :
    ∃ res : PricingResult, calculatePrice r = some res ∧
      res.breakdown.total =
        getBaseRate tier * SLOT_MULTIPLIERS tier * getGeoMultiplier r.countryCode *
          getTimeMultiplier r.startDate * FORMAT_MULTIPLIERS r.adFormat *
          getDurationDiscount r.duration *
          getDemandMultiplier r.slotType r.startDate * r.duration +
          (if r.isAiGenerated then AI_GENERATED_BONUS else 0) := by
  cases hres : calculatePrice r with
  | none =>
    refine absurd hres ?_
    unfold calculatePrice
    rw [ht]
    simp
  | some res => exact ⟨res, rfl, calculatePrice_breakdown_total r tier ht res hres⟩

/-- C1 witness: the formula evaluated on a concrete request. -/
theorem calculatePrice_total_formula_witness :
    SLOT_TIER_MAPPING "top_center" = some SlotTier.TOP ∧
    (∃ res : PricingResult,
      calculatePrice
        { slotType := "top_center", duration := 7, countryCode := "US",
          startDate := { getHours := 19, getDay := 3 }, adFormat := AdFormat.VIDEO,
          isAiGenerated := true } = some res ∧
      res.breakdown.total =
        getBaseRate SlotTier.TOP * SLOT_MULTIPLIERS SlotTier.TOP * getGeoMultiplier "US" *
          getTimeMultiplier { getHours := 19, getDay := 3 } * FORMAT_MULTIPLIERS AdFormat.VIDEO *
          getDurationDiscount 7 *
          getDemandMultiplier "top_center" { getHours := 19, getDay := 3 } * 7 +
          (if true then AI_GENERATED_BONUS else 0)) :=
  ⟨by decide, calculatePrice_total_formula _ SlotTier.TOP (by decide)⟩

/-- C7: `calculatePrice` is deterministic — identical inputs give
identical results. -/
theorem calculatePrice_deterministic (r1 r2 : PricingRequest) (h : r1 = r2) :
    calculatePrice r1 = calculatePrice r2 := by
  rw [h]

/-- C7 witness: determinism at a concrete request. -/
theorem calculatePrice_deterministic_witness :
    calculatePrice
        { slotType := "mid_left", duration := 3, countryCode := "NG",
          startDate := { getHours := 8, getDay := 1 }, adFormat := AdFormat.TEXT,
          isAiGenerated := false } =
      calculatePrice
        { slotType := "mid_left", duration := 3, countryCode := "NG",
          startDate := { getHours := 8, getDay := 1 }, adFormat := AdFormat.TEXT,
          isAiGenerated := false } :=
  calculatePrice_deterministic _ _ rfl

/-- C10: a Saturday or Sunday start date always gets the `WEEKEND`
multiplier 1.1, whatever the hour. -/
theorem getTimeMultiplier_weekend (d : JSDate)
    (h : d.getDay = 0 ∨ d.getDay = 6) :
    getTimeMultiplier d = TIME_MULTIPLIERS.WEEKEND ∧
    TIME_MULTIPLIERS.WEEKEND = 1.1 := by
  constructor
  · simp only [getTimeMultiplier]
    rw [if_pos h]
  · rfl

/-- C10 witness: a Saturday late-night hour still gets 1.1. -/
theorem getTimeMultiplier_weekend_witness :
    ((23 : ℕ) = 0 ∨ (6 : ℕ) = 6) ∧
    (getTimeMultiplier { getHours := 23, getDay := 6 } = TIME_MULTIPLIERS.WEEKEND ∧
      TIME_MULTIPLIERS.WEEKEND = 1.1) :=
  ⟨by decide, getTimeMultiplier_weekend { getHours := 23, getDay := 6 } (by decide)⟩

/-- C2 counterexample: `top_center` and `top_left` both map to tier `TOP`,
yet at a weekday prime-time hour (19h, Wednesday) `calculatePrice` uses
demand multiplier 1.8 for the first and 1.0 for the second. -/
theorem getDemandMultiplier_not_tier_based :
    SLOT_TIER_MAPPING "top_center" = some SlotTier.TOP ∧
    SLOT_TIER_MAPPING "top_left" = some SlotTier.TOP ∧
    getDemandMultiplier "top_center" { getHours := 19, getDay := 3 } =
      DEMAND_MULTIPLIERS.VERY_HIGH ∧
    getDemandMultiplier "top_left" { getHours := 19, getDay := 3 } =
      DEMAND_MULTIPLIERS.MEDIUM ∧
    DEMAND_MULTIPLIERS.VERY_HIGH ≠ DEMAND_MULTIPLIERS.MEDIUM := by
  refine ⟨by decide, by decide, ?_, ?_, ?_⟩
  · simp [getDemandMultiplier, AD_SLOT_TYPES.TOP_CENTER]
  · simp [getDemandMultiplier, AD_SLOT_TYPES.TOP_CENTER]
  · norm_num [DEMAND_MULTIPLIERS.VERY_HIGH, DEMAND_MULTIPLIERS.MEDIUM]

/-- C2 amended: the demand multiplier is a function of the slot-type
string, hour and weekday, and two slot types of the same tier get the same
demand multiplier provided neither is `top_center`; the `top_center`
branches break the tier-only dependence. -/
theorem getDemandMultiplier_same_tier_agree (s1 s2 : String) (d : JSDate)
    (ht : SLOT_TIER_MAPPING s1 = SLOT_TIER_MAPPING s2)
    (h1 : s1 ≠ AD_SLOT_TYPES.TOP_CENTER) (h2 : s2 ≠ AD_SLOT_TYPES.TOP_CENTER) :
    getDemandMultiplier s1 d = getDemandMultiplier s2 d := by
  simp only [getDemandMultiplier]
  simp [h1, h2]

/-- C2 amended witness: `top_left` and `top_right` share tier `TOP` and
get the same demand multiplier. -/
theorem getDemandMultiplier_same_tier_agree_witness :
    (SLOT_TIER_MAPPING "top_left" = SLOT_TIER_MAPPING "top_right" ∧
      "top_left" ≠ AD_SLOT_TYPES.TOP_CENTER ∧
      "top_right" ≠ AD_SLOT_TYPES.TOP_CENTER) ∧
    getDemandMultiplier "top_left" { getHours := 19, getDay := 3 } =
      getDemandMultiplier "top_right" { getHours := 19, getDay := 3 } :=
  ⟨⟨by decide, by decide, by decide⟩,
    getDemandMultiplier_same_tier_agree _ _ _ (by decide) (by decide) (by decide)⟩

/-- C5: a country code that is not a key of the geographic table gets the
default multiplier 1.0, and the result is the one obtained with the
default multiplier substituted (the `DEFAULT` table entry). -/
theorem calculatePrice_unknown_country (r : PricingRequest)
    (h : GEO_MULTIPLIERS r.countryCode = none) :
    getGeoMultiplier r.countryCode = 1.0 ∧
    calculatePrice r = calculatePrice { r with countryCode := "DEFAULT" } := by
  have hg : getGeoMultiplier r.countryCode = 1.0 := by
    simp [getGeoMultiplier, h]
  have hd : getGeoMultiplier "DEFAULT" = 1.0 := by
    norm_num [getGeoMultiplier, GEO_MULTIPLIERS]
  refine ⟨hg, ?_⟩
  cases htier : SLOT_TIER_MAPPING r.slotType with
  | none => simp [calculatePrice, htier]
  | some tier => simp [calculatePrice, htier, hg, hd]

/-- C5 witness: country `"XX"` is not in the table and prices like the
default. -/
theorem calculatePrice_unknown_country_witness :
    GEO_MULTIPLIERS "XX" = none ∧
    (getGeoMultiplier "XX" = 1.0 ∧
      calculatePrice
          { slotType := "top_center", duration := 7, countryCode := "XX",
            startDate := { getHours := 19, getDay := 3 }, adFormat := AdFormat.IMAGE,
            isAiGenerated := false } =
        calculatePrice
          { slotType := "top_center", duration := 7, countryCode := "DEFAULT",
            startDate := { getHours := 19, getDay := 3 }, adFormat := AdFormat.IMAGE,
            isAiGenerated := false }) :=
  ⟨by decide, calculatePrice_unknown_country
    { slotType := "top_center", duration := 7, countryCode := "XX",
      startDate := { getHours := 19, getDay := 3 }, adFormat := AdFormat.IMAGE,
      isAiGenerated := false } (by decide)⟩

/-- C6: both rounded fields of a successful result are the unrounded
breakdown values times 100, rounded to the nearest integer, divided
by 100. -/
theorem calculatePrice_two_decimal_rounding (r : PricingRequest)
    (res : PricingResult) (h : calculatePrice r = some res) :
    res.total = (round (res.breakdown.total * 100) : ℚ) / 100 ∧
    res.dailyRate = (round (res.breakdown.dailyRate * 100) : ℚ) / 100 := by
  unfold calculatePrice at h
  split at h
  · exact absurd h (by simp)
  · cases h
    constructor <;> rfl

/-- C6 witness: the rounding identity at a concrete request. -/
theorem calculatePrice_two_decimal_rounding_witness :
    ∃ res : PricingResult,
      calculatePrice
          { slotType := "mid_center", duration := 3, countryCode := "BR",
            startDate := { getHours := 10, getDay := 2 }, adFormat := AdFormat.TEXT,
            isAiGenerated := true } = some res ∧
      res.total = (round (res.breakdown.total * 100) : ℚ) / 100 ∧
      res.dailyRate = (round (res.breakdown.dailyRate * 100) : ℚ) / 100 := by
  have hs : (calculatePrice
      { slotType := "mid_center", duration := 3, countryCode := "BR",
        startDate := { getHours := 10, getDay := 2 }, adFormat := AdFormat.TEXT,
        isAiGenerated := true }).isSome := by rfl
  exact ⟨_, (Option.some_get hs).symm,
    calculatePrice_two_decimal_rounding _ _ (Option.some_get hs).symm⟩

/-- Rounding to 2 decimals commutes with adding the flat 10: the shift is
an integer number of cents. -/
theorem round2_add_ten (x : ℚ) : round2 (x + 10) = round2 x + 10 := by
  unfold round2
  have h : (x + 10) * 100 = x * 100 + ((1000 : ℤ) : ℚ) := by push_cast; ring
  rw [h, round_add_int]
  push_cast
  ring

/-- C4: with the slot type in the tier mapping, turning `isAiGenerated` on
raises the returned (rounded) total by exactly the flat 10, whatever the
other factors are. -/
theorem calculatePrice_ai_bonus_additive (r : PricingRequest) (tier : SlotTier)
    (ht : SLOT_TIER_MAPPING r.slotType = some tier)
    (resT resF : PricingResult)
    (hT : calculatePrice { r with isAiGenerated := true } = some resT)
    (hF : calculatePrice { r with isAiGenerated := false } = some resF) :
    resT.total = resF.total + 10 := by
  have eT := calculatePrice_total_eq { r with isAiGenerated := true } tier ht resT hT
  have eF := calculatePrice_total_eq { r with isAiGenerated := false } tier ht resF hF
  simp only [Bool.false_eq_true, if_true, if_false] at eT eF
  rw [eT, eF]
  have hAI : AI_GENERATED_BONUS = 10 := by norm_num [AI_GENERATED_BONUS, FORMAT_MULTIPLIERS]
  rw [hAI, add_zero]
  exact round2_add_ten _

/-- C4 witness: the flat bonus at a concrete request. -/
theorem calculatePrice_ai_bonus_additive_witness :
    SLOT_TIER_MAPPING "bottom_left" = some SlotTier.BOTTOM ∧
    (∀ resT resF : PricingResult,
        calculatePrice
            { slotType := "bottom_left", duration := 14, countryCode := "KE",
              startDate := { getHours := 2, getDay := 5 }, adFormat := AdFormat.TEXT,
              isAiGenerated := true } = some resT →
        calculatePrice
            { slotType := "bottom_left", duration := 14, countryCode := "KE",
              startDate := { getHours := 2, getDay := 5 }, adFormat := AdFormat.TEXT,
              isAiGenerated := false } = some resF →
        resT.total = resF.total + 10) := by
  constructor
  · decide
  · intro resT resF hT hF
    exact calculatePrice_ai_bonus_additive
      { slotType := "bottom_left", duration := 14, countryCode := "KE",
        startDate := { getHours := 2, getDay := 5 }, adFormat := AdFormat.TEXT,
        isAiGenerated := true } SlotTier.BOTTOM (by decide) resT resF hT hF

/-- C3: the rounded per-day cost is non-increasing in the duration: with
all other request fields fixed and `1 ≤ d1 ≤ d2`, the `dailyRate` for
duration `d2` is at most the one for `d1`. -/
theorem calculatePrice_dailyRate_antitone (r : PricingRequest) (tier : SlotTier)
    (ht : SLOT_TIER_MAPPING r.slotType = some tier)
    (d1 d2 : ℚ) (h1 : 1 ≤ d1) (h12 : d1 ≤ d2)
    (res1 res2 : PricingResult)
    (e1 : calculatePrice { r with duration := d1 } = some res1)
    (e2 : calculatePrice { r with duration := d2 } = some res2) :
    res2.dailyRate ≤ res1.dailyRate := by
  have f1 := calculatePrice_dailyRate_eq { r with duration := d1 } tier ht res1 e1
  have f2 := calculatePrice_dailyRate_eq { r with duration := d2 } tier ht res2 e2
  dsimp only at f1 f2
  rw [f1, f2]
  apply round2_mono
  have hd1 : (0 : ℚ) < d1 := by linarith
  have hd2 : (0 : ℚ) < d2 := by linarith
  set A := getBaseRate tier * SLOT_MULTIPLIERS tier * getGeoMultiplier r.countryCode *
    getTimeMultiplier r.startDate * FORMAT_MULTIPLIERS r.adFormat with hA
  set M := getDemandMultiplier r.slotType r.startDate with hM
  set b := (if r.isAiGenerated then AI_GENERATED_BONUS else 0 : ℚ) with hb
  have hApos : 0 < A := by
    rw [hA]
    exact mul_pos (mul_pos (mul_pos (mul_pos (getBaseRate_pos tier)
      (SLOT_MULTIPLIERS_pos tier)) (getGeoMultiplier_pos r.countryCode))
      (getTimeMultiplier_pos r.startDate)) (FORMAT_MULTIPLIERS_pos r.adFormat)
  have hMpos : 0 < M := getDemandMultiplier_pos r.slotType r.startDate
  have hbnn : 0 ≤ b := by
    rw [hb]
    split_ifs
    · norm_num [AI_GENERATED_BONUS, FORMAT_MULTIPLIERS]
    · exact le_refl 0
  have expand : ∀ dd d : ℚ, d ≠ 0 → (A * dd * M * d + b) / d = A * dd * M + b / d := by
    intro dd d hd
    field_simp
  rw [expand _ _ hd1.ne', expand _ _ hd2.ne']
  have hdisc := getDurationDiscount_antitone h12
  apply add_le_add
  · exact mul_le_mul_of_nonneg_right
      (mul_le_mul_of_nonneg_left hdisc (le_of_lt hApos)) (le_of_lt hMpos)
  · rw [div_le_div_iff₀ hd2 hd1]
    exact mul_le_mul_of_nonneg_left h12 hbnn

/-- C3 witness: the per-day rate at 14 days is at most the one at 3 days
for an otherwise identical request. -/
theorem calculatePrice_dailyRate_antitone_witness :
    ∃ res1 res2 : PricingResult,
      calculatePrice
          { slotType := "top_right", duration := 3, countryCode := "DE",
            startDate := { getHours := 12, getDay := 4 }, adFormat := AdFormat.VIDEO,
            isAiGenerated := true } = some res1 ∧
      calculatePrice
          { slotType := "top_right", duration := 14, countryCode := "DE",
            startDate := { getHours := 12, getDay := 4 }, adFormat := AdFormat.VIDEO,
            isAiGenerated := true } = some res2 ∧
      res2.dailyRate ≤ res1.dailyRate := by
  have hs1 : (calculatePrice
      { slotType := "top_right", duration := 3, countryCode := "DE",
        startDate := { getHours := 12, getDay := 4 }, adFormat := AdFormat.VIDEO,
        isAiGenerated := true }).isSome := by rfl
  have hs2 : (calculatePrice
      { slotType := "top_right", duration := 14, countryCode := "DE",
        startDate := { getHours := 12, getDay := 4 }, adFormat := AdFormat.VIDEO,
        isAiGenerated := true }).isSome := by rfl
  refine ⟨_, _, (Option.some_get hs1).symm, (Option.some_get hs2).symm, ?_⟩
  exact calculatePrice_dailyRate_antitone
    { slotType := "top_right", duration := 3, countryCode := "DE",
      startDate := { getHours := 12, getDay := 4 }, adFormat := AdFormat.VIDEO,
      isAiGenerated := true } SlotTier.TOP (by decide) 3 14 (by norm_num) (by norm_num)
    _ _ (Option.some_get hs1).symm (Option.some_get hs2).symm

/-- C8: the `/calculate` handler always answers either `success: true`
with the engine's result for the validated body, or HTTP 400 with
`success: false` and the validation error's message. -/
theorem postCalculate_success_or_badRequest (parseDate : String → JSDate)
    (body : RawBody) :
    (∃ v : ValidatedPricing, parsePricingRequest body = Except.ok v ∧
        postCalculate parseDate body =
          PricingResponse.success (calculatePrice (toPricingRequest parseDate v))) ∨
    (∃ e : String, parsePricingRequest body = Except.error e ∧
        postCalculate parseDate body = PricingResponse.badRequest e) := by
  cases h : parsePricingRequest body with
  | error e =>
    right
    exact ⟨e, rfl, by simp [postCalculate, h]⟩
  | ok v =>
    left
    exact ⟨v, rfl, by simp [postCalculate, h]⟩

/-- Each loop iteration of `processRewards` increments exactly one of the
two counters, and appends an error message exactly when `failed` grows. -/
theorem processOne_counts (env : RewardEnv) (acc : ℕ × ℕ × List String)
    (rewardId : String) :
    (processOne env acc rewardId).1 + (processOne env acc rewardId).2.1 =
      acc.1 + acc.2.1 + 1 ∧
    (processOne env acc rewardId).2.2.length + acc.2.1 =
      acc.2.2.length + (processOne env acc rewardId).2.1 := by
  cases hf : env.findReward rewardId with
  | none => simp [processOne, hf]; omega
  | some reward =>
    simp only [processOne, hf]
    split_ifs with hs
    · simp [List.length_append]; omega
    · cases hp : env.payout rewardId with
      | error m => simp [hp, List.length_append]; omega
      | ok u => simp [hp]; omega

/-- Counter invariant of the fold underlying `processRewards`. -/
theorem processRewards_fold_invariant (env : RewardEnv) (ids : List String) :
    ∀ acc : ℕ × ℕ × List String,
      (List.foldl (processOne env) acc ids).1 +
          (List.foldl (processOne env) acc ids).2.1 =
        acc.1 + acc.2.1 + ids.length ∧
      (List.foldl (processOne env) acc ids).2.2.length + acc.2.1 =
        acc.2.2.length + (List.foldl (processOne env) acc ids).2.1 := by
  induction ids with
  | nil => intro acc; simp
  | cons rewardId rest ih =>
    intro acc
    simp only [List.foldl_cons, List.length_cons]
    obtain ⟨h1, h2⟩ := ih (processOne env acc rewardId)
    obtain ⟨s1, s2⟩ := processOne_counts env acc rewardId
    omega

/-- C9: over any reward-id list and any database behaviour,
`processRewards` returns `processed + failed = length` and one error
message per failure. -/
theorem processRewards_counts (env : RewardEnv) (rewardIds : List String) :
    (processRewards env rewardIds).1 + (processRewards env rewardIds).2.1 =
      rewardIds.length ∧
    (processRewards env rewardIds).2.2.length =
      (processRewards env rewardIds).2.1 := by
  obtain ⟨h1, h2⟩ := processRewards_fold_invariant env rewardIds (0, 0, [])
  unfold processRewards
  constructor
  · simpa using h1
  · simpa using h2
